import Mathlib

/-!
Verification of the sandboxed tool layer of the `ai-bot` repository.

The embedding below translates the Python modules
`functions/get_file_content.py`, `functions/write_file.py`,
`functions/run_python_file.py`, `functions/get_files_info.py`,
`functions/tool_registry.py` and the tool-call handler of `main.py`
into Lean.  The operating-system services the code relies on
(`os.path.realpath`, the file contents on disk, `os.listdir`,
`os.stat`, `subprocess.run`) are modelled by an explicit `World`
record of oracles; canonical absolute paths (the outputs of
`os.path.realpath`) are represented as lists of path components.
Side effects are made observable through an explicit effect trace.
-/

/-- A canonical absolute path, as the list of its components:
`/workdir/sub/f.txt` is `["workdir", "sub", "f.txt"]` and `/` is `[]`.
This is the form `os.path.realpath` returns, with the leading separator
and the component structure made explicit. -/
abbrev FsPath := List String

/-- Render a canonical absolute path back to its string form, the way
`os.path.realpath` would print it (`[] ↦ "/"`, `["a","b"] ↦ "/a/b"`). -/
def pathStr (p : FsPath) : String :=
  "/" ++ String.intercalate "/" p

/-- Embedding of `os.path.commonpath([a, b])` for two canonical absolute
paths: the longest common component-wise sub-path.  `os.path.commonpath`
compares path components, never raw string characters. -/
def commonpath : FsPath → FsPath → FsPath
  | x :: xs, y :: ys => if x = y then x :: commonpath xs ys else []
  | _, _ => []

/-- The containment decision appearing verbatim in all four operations and
in the registry: `os.path.commonpath([root, cand]) == root`. -/
def containmentOk (root cand : FsPath) : Bool :=
  commonpath root cand == root

/-- Python's `str.startswith(p)`, on code points. -/
def strStarts (p s : String) : Bool :=
  p.data.isPrefixOf s.data

/-- Python's `str.endswith(suf)`, on code points. -/
def strEnds (suf s : String) : Bool :=
  suf.data.reverse.isPrefixOf s.data.reverse

/-- Embedding of POSIX `os.path.join(a, b)`: an absolute second argument
replaces the first, otherwise the parts are separator-joined. -/
def osJoin (a b : String) : String :=
  if strStarts "/" b then b
  else if a = "" || strEnds "/" a then a ++ b
  else a ++ "/" ++ b

/-- ASCII whitespace as stripped by Python's `str.strip()` (the claims
only involve these characters; the further Unicode space code points
`str.strip` also removes are not exercised by any claim). -/
def pyWhite (c : Char) : Bool :=
  c = ' ' || c = '\t' || c = '\n' || c = '\r' || c = '\x0b' || c = '\x0c'

/-- Python's `str.strip()`: drop leading and trailing whitespace. -/
def pyStrip (s : String) : String :=
  String.mk (((s.data.dropWhile pyWhite).reverse.dropWhile pyWhite).reverse)

/-- Python's rendering of a `bool` inside an f-string. -/
def pyBool (b : Bool) : String :=
  if b then "True" else "False"

/-- Python truthiness test `not x` for an optional string (`None` and the
empty string are falsy). -/
def pyFalsy : Option String → Bool
  | none => true
  | some s => s = ""

/-- Observable side effects of an operation: file reads, file writes,
directory enumerations, and subprocess launches. -/
inductive Effect where
  | fileRead (p : FsPath)
  | fileWrite (p : FsPath) (content : String)
  | listDir (p : FsPath)
  | spawn (script : FsPath) (args : List String)
  deriving Repr, DecidableEq

/-- Oracles for every operating-system service the Python code consults.
`realpath` maps a raw path string to its canonical symlink-resolved form;
`file` holds the decoded text of each regular file (so `os.path.isfile`
is `(file p).isSome`); `pathExists` is `os.path.exists`; `listdir`
returns the entry names or the rendered message of the `OSError` it
raises; `stat` gives `st_size` (`none` models an `OSError`, which the
listing skips); `isdir` is `os.path.isdir`; `readFault`/`writeFault`
model an exception class/detail pair raised by `open` for reading or
writing; the `proc*` fields describe the subprocess a script launch
would produce (stdout, stderr, exit code, wall-clock duration, any
launch-time exception, and the rendered `TimeoutExpired` message). -/
structure World where
  realpath : String → FsPath
  file : FsPath → Option String
  pathExists : FsPath → Bool
  isdir : FsPath → Bool
  listdir : FsPath → Except String (List String)
  stat : FsPath → Option Nat
  readFault : FsPath → Option (String × String)
  writeFault : FsPath → Option (String × String)
  procStdout : FsPath → List String → String
  procStderr : FsPath → List String → String
  procExit : FsPath → List String → Int
  procDuration : FsPath → List String → Nat
  procLaunchFault : FsPath → List String → Option String
  procTimeoutMsg : FsPath → List String → Nat → String

/-- Result of one embedded operation: the returned text, whether the
return came from a non-error branch, the post-state of the world, and
the trace of observable side effects. -/
structure OpResult where
  text : String
  ok : Bool
  world : World
  effects : List Effect

/-- Abbreviation for an error return that touches nothing. -/
def errRes (w : World) (msg : String) : OpResult :=
  ⟨msg, false, w, []⟩

/-- Outcome of `subprocess.run`: a completed process with captured
streams and exit code, or a raised exception rendered to its string. -/
inductive ProcOutcome where
  | completed (stdout stderr : String) (returncode : Int)
  | raised (excStr : String)

/-- Semantics of `subprocess.run(cmd, capture_output=True, text=True,
timeout=t)`: a launch-time fault raises; a process whose wall-clock
duration exceeds `t` is killed and `TimeoutExpired` is raised;
otherwise the completed process is returned. -/
def subprocessRun (w : World) (script : FsPath) (args : List String)
    (timeout : Nat) : ProcOutcome :=
  match w.procLaunchFault script args with
  | some m => .raised m
  | none =>
      if timeout < w.procDuration script args then
        .raised (w.procTimeoutMsg script args timeout)
      else
        .completed (w.procStdout script args) (w.procStderr script args)
          (w.procExit script args)

/-- Embedding of `functions/get_file_content.py`.  `MAX_READ_LENGTH` is
modelled from the spec: it is imported from `functions/config.py`, a file
absent from the sources; the spec fixes it at process start but states no
value, so it is an explicit parameter here. -/
def get_file_content (MAX_READ_LENGTH : Nat) (w : World)
    (working_directory file_path : String) : OpResult :=
  let intended_full_path := osJoin working_directory file_path
  let abs_working_dir := w.realpath working_directory
  let abs_file_path := w.realpath intended_full_path
  if !containmentOk abs_working_dir abs_file_path then
    errRes w ("Error: Cannot read \"" ++ file_path ++
      "\" as it is outside the permitted working directory")
  else
    match w.file abs_file_path with
    | none =>
        errRes w ("Error: File not found or is not a regular file: \"" ++
          file_path ++ "\"")
    | some content =>
        match w.readFault abs_file_path with
        | some (cls, detail) => errRes w ("Error: " ++ cls ++ ": " ++ detail)
        | none =>
            if content.length > MAX_READ_LENGTH then
              ⟨content.take MAX_READ_LENGTH ++
                ("[...File \"" ++ file_path ++ "\" truncated at " ++
                  toString MAX_READ_LENGTH ++ " characters]"),
                true, w, [.fileRead abs_file_path]⟩
            else
              ⟨content, true, w, [.fileRead abs_file_path]⟩

/-- Embedding of `functions/write_file.py`. -/
def write_file (w : World) (working_directory file_path content : String) :
    OpResult :=
  let intended_full_path := osJoin working_directory file_path
  let abs_working_dir := w.realpath working_directory
  let abs_file_path := w.realpath intended_full_path
  if !containmentOk abs_working_dir abs_file_path then
    errRes w ("Error: Cannot write to \"" ++ file_path ++
      "\" as it is outside the permitted working directory")
  else
    match w.writeFault abs_file_path with
    | some (cls, detail) => errRes w ("Error: " ++ cls ++ ": " ++ detail)
    | none =>
        ⟨"Successfully wrote to \"" ++ file_path ++ "\" (" ++
          toString content.length ++ " characters written)",
          true,
          { w with file := fun p =>
              if p = abs_file_path then some content else w.file p },
          [.fileWrite abs_file_path content]⟩

/-- Embedding of `functions/run_python_file.py`.  The hard-coded
`timeout=30` of the source is passed to `subprocessRun` unchanged. -/
def run_python_file (w : World) (working_directory file_path : String)
    (args : List String) : OpResult :=
  let intended_full_path := osJoin working_directory file_path
  let abs_working_dir := w.realpath working_directory
  let abs_file_path := w.realpath intended_full_path
  if !containmentOk abs_working_dir abs_file_path then
    errRes w ("Error: Cannot execute \"" ++ file_path ++
      "\" as it is outside the permitted working directory")
  else if (w.file abs_file_path).isNone then
    errRes w ("Error: File \"" ++ file_path ++ "\" not found.")
  else if !strEnds ".py" (pathStr abs_file_path) then
    errRes w ("Error: \"" ++ file_path ++ "\" is not a Python file.")
  else
    match subprocessRun w abs_file_path args 30 with
    | .raised excStr =>
        ⟨"Error: executing Python file: " ++ excStr, false, w,
          [.spawn abs_file_path args]⟩
    | .completed out err code =>
        let stdout := pyStrip out
        let stderr := pyStrip err
        if stdout = "" && stderr = "" then
          ⟨"No output produced.", true, w, [.spawn abs_file_path args]⟩
        else
          let output_lines :=
            [if stdout ≠ "" then "STDOUT: " ++ stdout else "STDOUT:",
             if stderr ≠ "" then "STDERR: " ++ stderr else "STDERR:"]
          let output_lines :=
            if code ≠ 0 then
              output_lines ++ ["Process exited with code " ++ toString code]
            else output_lines
          ⟨String.intercalate "\n" output_lines, true, w,
            [.spawn abs_file_path args]⟩

/-- Straight insertion used to model Python's `sorted` on entry names
(ascending code-point order; stability is irrelevant on distinct names). -/
def insortStr (x : String) : List String → List String
  | [] => [x]
  | y :: ys => if x ≤ y then x :: y :: ys else y :: insortStr x ys

/-- Model of `sorted` on a list of strings. -/
def sortStr (l : List String) : List String :=
  l.foldr insortStr []

/-- Embedding of `functions/get_files_info.py`.  The source also records
`relpath`, `abspath` and `mtime` per entry, but only the name, size and
directory flag reach the rendered output, so only those are kept. -/
def get_files_info (w : World) (working_directory : String)
    (directory : String) : OpResult :=
  if strStarts "/" directory then
    errRes w
      "Error: `directory` must be a relative path within the working_directory"
  else
    let wd := w.realpath working_directory
    let target_dir := w.realpath (osJoin (pathStr wd) directory)
    if !containmentOk wd target_dir then
      errRes w ("Error: Cannot list \"" ++ directory ++
        "\" as it is outside the permitted working directory")
    else if !w.pathExists target_dir then
      errRes w ("Error: \"" ++ directory ++ "\" is not a directory")
    else
      match w.listdir target_dir with
      | .error excStr => errRes w ("Error: " ++ excStr)
      | .ok names =>
          let entries := (sortStr names).filterMap (fun name =>
            let abspath := osJoin (pathStr target_dir) name
            match w.stat (w.realpath abspath) with
            | none => none
            | some size => some (name, size, w.isdir (w.realpath abspath)))
          let lines := entries.map (fun e =>
            "- " ++ e.1 ++ ": file_size=" ++ toString e.2.1 ++
              " bytes, is_dir=" ++ pyBool e.2.2)
          ⟨String.intercalate "\n" lines, true, w, [.listDir target_dir]⟩

/-- A JSON-decoded value appearing inside the `args` array of a tool
call: either a string or some non-string value (only the `isinstance`
distinction matters to the code). -/
inductive PyVal where
  | pstr (s : String)
  | pother
  deriving Repr, DecidableEq

/-- The `args` member of the decoded argument mapping: absent, JSON
`null`, a list, or some non-list value. -/
inductive ArgsVal where
  | absent
  | pynull
  | pylist (l : List PyVal)
  | pyother
  deriving Repr, DecidableEq

/-- The decoded argument mapping handed to an executor
(`Dict[str, Any]` in the source); each field is what `args.get` would
return for the corresponding key.  Non-string values for the string
keys are outside the model (the outer handler of `main.py` would catch
the resulting `TypeError` and render it, which claim C8 covers through
the same uniform prefix). -/
structure ToolArgs where
  working_directory : Option String := none
  file_path : Option String := none
  content : Option String := none
  directory : Option String := none
  argsField : ArgsVal := .absent

/-- Embedding of `tool_registry._resolve_working_directory`.  `repoRoot`
models the module constant `REPO_ROOT = os.path.realpath(os.getcwd())`,
already in canonical form.  A raised `ValueError` is modelled as the
`Except.error` carrying its message. -/
def resolveWorkingDirectory (w : World) (repoRoot : FsPath)
    (raw_directory : Option String) : Except String FsPath :=
  let directory := match raw_directory with
    | none => "."
    | some s => if s = "" then "." else s
  let candidate := w.realpath
    (if strStarts "/" directory then directory
     else osJoin (pathStr repoRoot) directory)
  if !containmentOk repoRoot candidate then
    .error "working_directory must remain inside the repository root."
  else
    .ok candidate

/-- Embedding of `tool_registry._execute_get_file_content`. -/
def executeGetFileContent (MAX_READ_LENGTH : Nat) (w : World)
    (repoRoot : FsPath) (a : ToolArgs) : OpResult :=
  if pyFalsy a.file_path then
    errRes w "Error: \"file_path\" is required."
  else
    match resolveWorkingDirectory w repoRoot a.working_directory with
    | .error m => errRes w ("Error: " ++ m)
    | .ok wd =>
        get_file_content MAX_READ_LENGTH w (pathStr wd) (a.file_path.getD "")

/-- Embedding of `tool_registry._execute_get_files_info`. -/
def executeGetFilesInfo (w : World) (repoRoot : FsPath) (a : ToolArgs) :
    OpResult :=
  match resolveWorkingDirectory w repoRoot a.working_directory with
  | .error m => errRes w ("Error: " ++ m)
  | .ok wd => get_files_info w (pathStr wd) (a.directory.getD ".")

/-- Embedding of `tool_registry._execute_write_file`. -/
def executeWriteFile (w : World) (repoRoot : FsPath) (a : ToolArgs) :
    OpResult :=
  if pyFalsy a.file_path || a.content = none then
    errRes w "Error: Both \"file_path\" and \"content\" are required."
  else
    match resolveWorkingDirectory w repoRoot a.working_directory with
    | .error m => errRes w ("Error: " ++ m)
    | .ok wd =>
        write_file w (pathStr wd) (a.file_path.getD "") (a.content.getD "")

/-- The per-entry string check of `_execute_run_python_file`'s loop:
`none` models the early `return` on a non-string entry. -/
def collectStrArgs : List PyVal → Option (List String)
  | [] => some []
  | .pstr s :: rest => (collectStrArgs rest).map (s :: ·)
  | .pother :: _ => none

/-- Embedding of `tool_registry._execute_run_python_file`. -/
def executeRunPythonFile (w : World) (repoRoot : FsPath) (a : ToolArgs) :
    OpResult :=
  if pyFalsy a.file_path then
    errRes w "Error: \"file_path\" is required."
  else
    match a.argsField with
    | .pyother => errRes w "Error: \"args\" must be a list of strings."
    | .pylist l =>
        match collectStrArgs l with
        | none => errRes w "Error: All entries in \"args\" must be strings."
        | some tool_args =>
            match resolveWorkingDirectory w repoRoot a.working_directory with
            | .error m => errRes w ("Error: " ++ m)
            | .ok wd =>
                run_python_file w (pathStr wd) (a.file_path.getD "") tool_args
    | _ =>
        match resolveWorkingDirectory w repoRoot a.working_directory with
        | .error m => errRes w ("Error: " ++ m)
        | .ok wd => run_python_file w (pathStr wd) (a.file_path.getD "") []

/-- The `required` member of each schema in `TOOL_DEFINITIONS`. -/
def toolRequired : String → List String
  | "get_file_content" => ["working_directory", "file_path"]
  | "get_files_info" => ["working_directory"]
  | "write_file" => ["working_directory", "file_path", "content"]
  | "run_python_file" => ["working_directory", "file_path"]
  | _ => []

/-- The lookup in the `TOOL_EXECUTORS` dictionary: `none` models a name
with no registered executor. -/
def lookupExecutor (MAX_READ_LENGTH : Nat) (w : World) (repoRoot : FsPath)
    (name : String) : Option (ToolArgs → OpResult) :=
  if name = "get_file_content" then
    some (executeGetFileContent MAX_READ_LENGTH w repoRoot)
  else if name = "get_files_info" then some (executeGetFilesInfo w repoRoot)
  else if name = "write_file" then some (executeWriteFile w repoRoot)
  else if name = "run_python_file" then
    some (executeRunPythonFile w repoRoot)
  else none

/-- Embedding of `main._handle_tool_call` (its first tuple component; the
log-summary component never reaches the tool-result channel and is
omitted).  `parsed` is the outcome of `json.loads` on the raw argument
string: the decoded mapping, or the rendered `JSONDecodeError`. -/
def handleToolCall (MAX_READ_LENGTH : Nat) (w : World) (repoRoot : FsPath)
    (tool_name : String) (parsed : Except String ToolArgs) : OpResult :=
  match lookupExecutor MAX_READ_LENGTH w repoRoot tool_name with
  | none => errRes w ("Error: Unknown tool \"" ++ tool_name ++ "\".")
  | some executor =>
      match parsed with
      | .error exc =>
          errRes w ("Error: Could not parse arguments for tool \"" ++
            tool_name ++ "\": " ++ exc)
      | .ok arguments => executor arguments

lemma errRes_text (w : World) (m : String) : (errRes w m).text = m := rfl

lemma errRes_ok (w : World) (m : String) : (errRes w m).ok = false := rfl

/-- The longest common component-wise sub-path of `a` and `b` is `a`
itself exactly when `b` extends `a` by some (possibly empty) tail of
components. -/
lemma commonpath_eq_self_iff (a b : FsPath) :
    commonpath a b = a ↔ ∃ t, b = a ++ t := by
  induction a generalizing b with
  | nil =>
      constructor
      · intro _; exact ⟨b, by simp⟩
      · intro _; cases b <;> rfl
  | cons x xs ih =>
      cases b with
      | nil =>
          rw [show commonpath (x :: xs) [] = [] from rfl]
          constructor
          · intro h; exact absurd h.symm (List.cons_ne_nil x xs)
          · rintro ⟨t, ht⟩; exact absurd ht (by simp)
      | cons y ys =>
          rw [show commonpath (x :: xs) (y :: ys) =
            (if x = y then x :: commonpath xs ys else []) from rfl]
          by_cases hxy : x = y
          · subst hxy
            rw [if_pos rfl]
            constructor
            · intro h
              injection h with h1 h2
              obtain ⟨t, rfl⟩ := (ih ys).1 h2
              exact ⟨t, rfl⟩
            · rintro ⟨t, ht⟩
              rw [List.cons_append] at ht
              injection ht with h1 h2
              rw [(ih ys).2 ⟨t, h2⟩]
          · rw [if_neg hxy]
            constructor
            · intro h; exact absurd h.symm (List.cons_ne_nil x xs)
            · rintro ⟨t, ht⟩
              rw [List.cons_append] at ht
              injection ht with h1 h2
              exact absurd h1.symm hxy

/-- The code's containment check `commonpath([root, cand]) == root` holds
exactly when `cand` lies at or below `root`, component-wise. -/
lemma containmentOk_iff (root cand : FsPath) :
    containmentOk root cand = true ↔ ∃ t, cand = root ++ t := by
  unfold containmentOk
  rw [beq_iff_eq]
  exact commonpath_eq_self_iff root cand

lemma containmentOk_refl (a : FsPath) : containmentOk a a = true :=
  (containmentOk_iff a a).2 ⟨[], (List.append_nil a).symm⟩

lemma containmentOk_eq_false (root cand : FsPath)
    (h : ∀ t, cand ≠ root ++ t) : containmentOk root cand = false := by
  cases hc : containmentOk root cand
  · rfl
  · obtain ⟨t, ht⟩ := (containmentOk_iff root cand).1 hc
    exact absurd ht (h t)

lemma isPre_append {α : Type} [BEq α] [LawfulBEq α] :
    ∀ (l₁ l₂ l₃ : List α), l₁.isPrefixOf l₂ = true →
      l₁.isPrefixOf (l₂ ++ l₃) = true := by
  intro l₁
  induction l₁ with
  | nil => intro l₂ l₃ _; simp [List.isPrefixOf]
  | cons a as ih =>
      intro l₂ l₃ h
      cases l₂ with
      | nil => simp [List.isPrefixOf] at h
      | cons b bs =>
          simp only [List.isPrefixOf, Bool.and_eq_true, beq_iff_eq] at h
          simp only [List.cons_append, List.isPrefixOf, Bool.and_eq_true,
            beq_iff_eq]
          exact ⟨h.1, ih bs l₃ h.2⟩

lemma isPre_head {α : Type} [BEq α] [LawfulBEq α] (l₁ l₂ : List α)
    (h : l₁.isPrefixOf l₂ = true) (a : α) (ha : l₁.head? = some a) :
    l₂.head? = some a := by
  cases l₁ with
  | nil => simp at ha
  | cons x xs =>
      cases l₂ with
      | nil => simp [List.isPrefixOf] at h
      | cons y ys =>
          simp only [List.isPrefixOf, Bool.and_eq_true, beq_iff_eq] at h
          simp only [List.head?_cons, Option.some.injEq] at ha ⊢
          rw [← h.1]; exact ha

lemma strStarts_append (p s t : String) (h : strStarts p s = true) :
    strStarts p (s ++ t) = true := by
  unfold strStarts at h ⊢
  rw [String.data_append]
  exact isPre_append _ _ _ h

lemma not_error_of_stdout (s : String) (h : strStarts "STDOUT:" s = true) :
    strStarts "Error:" s = false := by
  have h1 : s.data.head? = some 'S' := isPre_head _ _ h 'S' (by decide)
  cases he : strStarts "Error:" s
  · rfl
  · have h2 : s.data.head? = some 'E' := isPre_head _ _ he 'E' (by decide)
    rw [h1] at h2
    exact absurd h2 (by decide)

lemma intercalate_go_shape (sep : String) : ∀ (as : List String)
    (acc : String), ∃ t : String,
      String.intercalate.go acc sep as = acc ++ t := by
  intro as
  induction as with
  | nil => intro acc; exact ⟨"", by simp [String.intercalate.go]⟩
  | cons a as ih =>
      intro acc
      obtain ⟨t, ht⟩ := ih (acc ++ sep ++ a)
      refine ⟨sep ++ a ++ t, ?_⟩
      show String.intercalate.go (acc ++ sep ++ a) sep as = _
      rw [ht]
      simp [String.append_assoc]

lemma intercalate_shape (sep a : String) (rest : List String) :
    ∃ t, String.intercalate sep (a :: rest) = a ++ t := by
  show ∃ t, String.intercalate.go a sep rest = a ++ t
  exact intercalate_go_shape sep rest a

lemma block_starts_stdout (a : String) (rest : List String)
    (ha : strStarts "STDOUT:" a = true) :
    strStarts "STDOUT:" (String.intercalate "\n" (a :: rest)) = true := by
  obtain ⟨t, ht⟩ := intercalate_shape "\n" a rest
  rw [ht]
  exact strStarts_append _ _ _ ha

lemma ne_no_output (s : String) (hs : strStarts "STDOUT:" s = true) :
    s ≠ "No output produced." := by
  intro he
  rw [he] at hs
  exact absurd hs (by decide)

/-- A world in which nothing exists and every oracle is inert; concrete
scenarios below override the relevant fields. -/
def wBase : World where
  realpath := fun _ => []
  file := fun _ => none
  pathExists := fun _ => false
  isdir := fun _ => false
  listdir := fun _ => .error ""
  stat := fun _ => none
  readFault := fun _ => none
  writeFault := fun _ => none
  procStdout := fun _ _ => ""
  procStderr := fun _ _ => ""
  procExit := fun _ _ => 0
  procDuration := fun _ _ => 0
  procLaunchFault := fun _ _ => none
  procTimeoutMsg := fun _ _ _ => ""

/-- Scenario world: root `/ws`; the candidate `../etc/passwd` resolves
outside it. -/
def wEscape : World := { wBase with
  realpath := fun s =>
    if s = "/ws" then ["ws"]
    else if s = "/ws/../etc/passwd" then ["etc", "passwd"]
    else [] }

/-- Scenario world: root `/ws` containing (after the write) `a.txt`. -/
def wRoundtrip : World := { wBase with
  realpath := fun s =>
    if s = "/ws" then ["ws"]
    else if s = "/ws/a.txt" then ["ws", "a.txt"]
    else [] }

/-- Scenario world: root `/ws` with a script `main.py` whose process
exits with code 5 producing no output on either stream. -/
def wSilentFail : World := { wBase with
  realpath := fun s =>
    if s = "/ws" then ["ws"]
    else if s = "/ws/main.py" then ["ws", "main.py"]
    else [],
  file := fun p => if p = ["ws", "main.py"] then some "" else none,
  procExit := fun _ _ => 5 }

/-- Scenario world: root `/ws` where `notes.txt` exists but is a regular
file, so `os.listdir` on it raises `NotADirectoryError`. -/
def wNotADir : World := { wBase with
  realpath := fun s =>
    if s = "/ws" then ["ws"]
    else if s = "/ws/notes.txt" then ["ws", "notes.txt"]
    else [],
  pathExists := fun p => p == ["ws", "notes.txt"],
  listdir := fun p =>
    if p = ["ws", "notes.txt"] then
      .error "[Errno 20] Not a directory: \x27/ws/notes.txt\x27"
    else .error "" }

/-- Scenario world: root `/ws` with a script `main.py` that exits with
code 2, empty stdout, and `boom` on stderr. -/
def wBoom : World := { wBase with
  realpath := fun s =>
    if s = "/ws" then ["ws"]
    else if s = "/ws/main.py" then ["ws", "main.py"]
    else [],
  file := fun p => if p = ["ws", "main.py"] then some "" else none,
  procStderr := fun _ _ => "boom\n",
  procExit := fun _ _ => 2 }

/-- Scenario world: root `/ws` with a script `main.py` that sleeps for
60 time-units, beyond the 30-unit bound. -/
def wSleeper : World := { wBase with
  realpath := fun s =>
    if s = "/ws" then ["ws"]
    else if s = "/ws/main.py" then ["ws", "main.py"]
    else [],
  file := fun p => if p = ["ws", "main.py"] then some "" else none,
  procDuration := fun _ _ => 60,
  procTimeoutMsg := fun _ _ t =>
    "Command timed out after " ++ toString t ++ " seconds" }

/-- Scenario world: repository root `/repo`. -/
def wRepo : World := { wBase with
  realpath := fun s =>
    if s = "/repo/." then ["repo"]
    else if s = "/repo" then ["repo"]
    else if s = "/repo/f.py" then ["repo", "f.py"]
    else [] }


/-- C3: the containment decision `commonpath([root, cand]) == root`,
shared by every operation and by the registry (`containmentOk`), accepts
a resolved candidate exactly when it equals the resolved root or extends
it by at least one whole path component; in particular, for root
`/workdir` the resolved candidate `/workdir2` is rejected, so no
string-prefix matching occurs. -/
theorem containment_decision_characterisation :
    (∀ root cand : FsPath,
      containmentOk root cand = true ↔
        (cand = root ∨ ∃ t : FsPath, t ≠ [] ∧ cand = root ++ t)) ∧
    containmentOk ["workdir"] ["workdir2"] = false := by
  constructor
  · intro root cand
    rw [containmentOk_iff]
    constructor
    · rintro ⟨t, rfl⟩
      cases t with
      | nil => left; simp
      | cons x xs => right; exact ⟨x :: xs, by simp, rfl⟩
    · rintro (rfl | ⟨t, -, rfl⟩)
      · exact ⟨[], by simp⟩
      · exact ⟨t, rfl⟩
  · decide

/-- C1: whenever the symlink-resolved form of `join(R, C)` is neither
the resolved root nor below it (it extends the resolved root by no tail
of components), each of `get_file_content`, `write_file` and
`run_python_file` returns its containment-error string naming the
candidate `C`, leaves the world untouched, and records no read, write,
or spawn effect (`errRes` carries the unchanged world and an empty
effect trace). -/
theorem containment_breach_rejected_without_side_effects
    (MAX_READ_LENGTH : Nat) (w : World) (R C content : String)
    (args : List String)
    (h : ∀ t : FsPath, w.realpath (osJoin R C) ≠ w.realpath R ++ t) :
    get_file_content MAX_READ_LENGTH w R C =
      errRes w ("Error: Cannot read \"" ++ C ++
        "\" as it is outside the permitted working directory") ∧
    write_file w R C content =
      errRes w ("Error: Cannot write to \"" ++ C ++
        "\" as it is outside the permitted working directory") ∧
    run_python_file w R C args =
      errRes w ("Error: Cannot execute \"" ++ C ++
        "\" as it is outside the permitted working directory") := by
  have hc : containmentOk (w.realpath R) (w.realpath (osJoin R C)) =
      false := containmentOk_eq_false _ _ h
  refine ⟨?_, ?_, ?_⟩
  · simp only [get_file_content, hc, Bool.not_false, if_true]
  · simp only [write_file, hc, Bool.not_false, if_true]
  · simp only [run_python_file, hc, Bool.not_false, if_true]

/-- Witness for C1: in `wEscape`, the candidate `../etc/passwd` under
root `/ws` resolves to `/etc/passwd`, strictly outside the root. -/
theorem containment_breach_rejected_without_side_effects_witness :
    (∀ t : FsPath, wEscape.realpath (osJoin "/ws" "../etc/passwd") ≠
      wEscape.realpath "/ws" ++ t) ∧
    get_file_content 100 wEscape "/ws" "../etc/passwd" =
      errRes wEscape ("Error: Cannot read \"../etc/passwd\"" ++
        " as it is outside the permitted working directory") ∧
    write_file wEscape "/ws" "../etc/passwd" "x" =
      errRes wEscape ("Error: Cannot write to \"../etc/passwd\"" ++
        " as it is outside the permitted working directory") ∧
    run_python_file wEscape "/ws" "../etc/passwd" [] =
      errRes wEscape ("Error: Cannot execute \"../etc/passwd\"" ++
        " as it is outside the permitted working directory") := by
  have h : ∀ t : FsPath, wEscape.realpath (osJoin "/ws" "../etc/passwd") ≠
      wEscape.realpath "/ws" ++ t := by
    intro t ht
    rw [show wEscape.realpath (osJoin "/ws" "../etc/passwd") =
      ["etc", "passwd"] from by decide,
      show wEscape.realpath "/ws" = ["ws"] from by decide] at ht
    rw [List.singleton_append] at ht
    injection ht with h1 h2
    exact absurd h1 (by decide)
  obtain ⟨h1, h2, h3⟩ :=
    containment_breach_rejected_without_side_effects 100 wEscape "/ws"
      "../etc/passwd" "x" [] h
  exact ⟨h, h1, h2, h3⟩

/-- C2: for a path `P` inside the sandbox root `R` (the containment check
passes) on which neither the write nor the subsequent read faults,
writing `X` and then reading `P` returns exactly `X` when
`len(X) <= MAX_READ_LENGTH`, and returns the first `MAX_READ_LENGTH`
characters of `X` directly followed by the marker
`[...File "<P>" truncated at <MAX_READ_LENGTH> characters]` when
`len(X) > MAX_READ_LENGTH`; the marker appears exactly in the second
case.  Lengths are counted in characters (code points), as Python's
`len` does. -/
theorem write_then_read_roundtrip (MAX_READ_LENGTH : Nat) (w : World)
    (R P X : String)
    (hin : containmentOk (w.realpath R) (w.realpath (osJoin R P)) = true)
    (hw : w.writeFault (w.realpath (osJoin R P)) = none)
    (hr : w.readFault (w.realpath (osJoin R P)) = none) :
    (X.length ≤ MAX_READ_LENGTH →
      (get_file_content MAX_READ_LENGTH (write_file w R P X).world R
        P).text = X) ∧
    (MAX_READ_LENGTH < X.length →
      (get_file_content MAX_READ_LENGTH (write_file w R P X).world R
        P).text =
        X.take MAX_READ_LENGTH ++
          ("[...File \"" ++ P ++ "\" truncated at " ++
            toString MAX_READ_LENGTH ++ " characters]")) := by
  have hwrite : (write_file w R P X).world =
      { w with file := fun p =>
          if p = w.realpath (osJoin R P) then some X else w.file p } := by
    simp only [write_file, hin, Bool.not_true, Bool.false_eq_true,
      if_false, hw]
  constructor
  · intro hle
    simp [hwrite, get_file_content, hin, hr, Nat.not_lt.2 hle]
  · intro hlt
    simp [hwrite, get_file_content, hin, hr, hlt]

/-- Witness for C2: writing eleven characters under a five-character cap
reads back the first five followed by the exact truncation marker. -/
theorem write_then_read_roundtrip_witness :
    (get_file_content 5 (write_file wRoundtrip "/ws" "a.txt"
      "hello world").world "/ws" "a.txt").text =
      "hello world".take 5 ++
        ("[...File \"a.txt\" truncated at 5 characters]") :=
  (write_then_read_roundtrip 5 wRoundtrip "/ws" "a.txt" "hello world"
    (by decide) (by decide) (by decide)).2 (by decide)

/-- C7: when the containment check passes and the write itself does not
fault, `write_file` returns exactly
`Successfully wrote to "<P>" (<N> characters written)` with `N` the
character count (code points, not bytes) of the content, from a
non-error branch; and repeating the identical write against the
resulting world returns the same message. -/
theorem write_success_message (w : World) (R P X : String)
    (hin : containmentOk (w.realpath R) (w.realpath (osJoin R P)) = true)
    (hw : w.writeFault (w.realpath (osJoin R P)) = none) :
    (write_file w R P X).text =
      "Successfully wrote to \"" ++ P ++ "\" (" ++ toString X.length ++
        " characters written)" ∧
    (write_file w R P X).ok = true ∧
    (write_file (write_file w R P X).world R P X).text =
      (write_file w R P X).text := by
  have h1 : write_file w R P X =
      ⟨"Successfully wrote to \"" ++ P ++ "\" (" ++ toString X.length ++
          " characters written)", true,
        { w with file := fun p =>
            if p = w.realpath (osJoin R P) then some X else w.file p },
        [.fileWrite (w.realpath (osJoin R P)) X]⟩ := by
    simp only [write_file, hin, Bool.not_true, Bool.false_eq_true,
      if_false, hw]
  rw [h1]
  refine ⟨rfl, rfl, ?_⟩
  simp only [write_file, hin, Bool.not_true, Bool.false_eq_true,
    if_false, hw]

/-- Witness for C7: writing the two-character content `hi` to `a.txt`
reports two characters written. -/
theorem write_success_message_witness :
    (write_file wRoundtrip "/ws" "a.txt" "hi").text =
      "Successfully wrote to \"a.txt\" (" ++ toString ("hi").length ++
        " characters written)" :=
  (write_success_message wRoundtrip "/ws" "a.txt" "hi" (by decide)
    (by decide)).1

/-- C4, counterexample: in `wSilentFail` the script's process exits with
code 5 while both trimmed streams are empty, yet `run_python_file`
returns `No output produced.` — not the rendered block with the
exit-code line that the claim requires for a non-zero exit. -/
theorem no_output_despite_nonzero_exit_counterexample :
    wSilentFail.procExit ["ws", "main.py"] [] = 5 ∧
    pyStrip (wSilentFail.procStdout ["ws", "main.py"] []) = "" ∧
    pyStrip (wSilentFail.procStderr ["ws", "main.py"] []) = "" ∧
    (run_python_file wSilentFail "/ws" "main.py" []).text =
      "No output produced." ∧
    (run_python_file wSilentFail "/ws" "main.py" []).text ≠
      "STDOUT:\nSTDERR:\nProcess exited with code 5" := by
  refine ⟨by decide, by decide, by decide, by decide, by decide⟩

/-- C4, amended: once execution is reached (containment passes, the
target is a regular `.py` file, the launch does not fault, and the
process finishes within the 30-unit bound), `run_python_file` returns
the distinct `No output produced.` result exactly when both
whitespace-trimmed streams are empty — regardless of the exit code; an
exit-code line is never produced in that case. -/
theorem no_output_exactly_when_streams_empty (w : World) (R C : String)
    (args : List String)
    (hin : containmentOk (w.realpath R) (w.realpath (osJoin R C)) = true)
    (hf : (w.file (w.realpath (osJoin R C))).isNone = false)
    (hpy : strEnds ".py" (pathStr (w.realpath (osJoin R C))) = true)
    (hl : w.procLaunchFault (w.realpath (osJoin R C)) args = none)
    (hd : w.procDuration (w.realpath (osJoin R C)) args ≤ 30) :
    (run_python_file w R C args).text = "No output produced." ↔
      (pyStrip (w.procStdout (w.realpath (osJoin R C)) args) = "" ∧
       pyStrip (w.procStderr (w.realpath (osJoin R C)) args) = "") := by
  have hstdout : ∀ s : String,
      strStarts "STDOUT:" (if s ≠ "" then "STDOUT: " ++ s else "STDOUT:") =
        true := by
    intro s
    by_cases hs : s = ""
    · simp [hs]
      decide
    · simp [hs]
      exact strStarts_append "STDOUT:" "STDOUT: " s (by decide)
  by_cases ho : pyStrip (w.procStdout (w.realpath (osJoin R C)) args) = ""
  · by_cases he : pyStrip (w.procStderr (w.realpath (osJoin R C)) args) = ""
    · constructor
      · intro _; exact ⟨ho, he⟩
      · intro _
        simp [run_python_file, subprocessRun, hin, hf, hpy, hl,
          Nat.not_lt.2 hd, ho, he]
    · have hne : (run_python_file w R C args).text ≠
          "No output produced." := by
        apply ne_no_output
        by_cases hc0 : w.procExit (w.realpath (osJoin R C)) args = 0
        · simp [run_python_file, subprocessRun, hin, hf, hpy, hl,
            Nat.not_lt.2 hd, ho, he, hc0]
          exact block_starts_stdout _ _ (by decide)
        · simp [run_python_file, subprocessRun, hin, hf, hpy, hl,
            Nat.not_lt.2 hd, ho, he, hc0]
          exact block_starts_stdout _ _ (by decide)
      constructor
      · intro h; exact absurd h hne
      · rintro ⟨-, he'⟩; exact absurd he' he
  · have hne : (run_python_file w R C args).text ≠
        "No output produced." := by
      apply ne_no_output
      by_cases he : pyStrip (w.procStderr (w.realpath (osJoin R C)) args) = ""
      all_goals by_cases hc0 : w.procExit (w.realpath (osJoin R C)) args = 0
      all_goals
        simp [run_python_file, subprocessRun, hin, hf, hpy, hl,
          Nat.not_lt.2 hd, ho, he, hc0]
      all_goals
        exact block_starts_stdout _ _
          (strStarts_append "STDOUT:" "STDOUT: " _ (by decide))
    constructor
    · intro h; exact absurd h hne
    · rintro ⟨ho', -⟩; exact absurd ho' ho

/-- Witness for the amended C4: in `wSilentFail` (exit code 5, empty
streams) the theorem yields the `No output produced.` text. -/
theorem no_output_exactly_when_streams_empty_witness :
    (run_python_file wSilentFail "/ws" "main.py" []).text =
      "No output produced." :=
  (no_output_exactly_when_streams_empty wSilentFail "/ws" "main.py" []
    (by decide) (by decide) (by decide) (by decide) (by decide)).2
    ⟨by decide, by decide⟩

/-- C6: whenever execution is reached and the process exits with code 2,
its stdout trimming to empty and its stderr trimming to `boom`,
`run_python_file` returns exactly the three newline-joined lines
`STDOUT:`, `STDERR: boom`, `Process exited with code 2`, in that
order. -/
theorem exit_two_boom_rendering (w : World) (R C : String)
    (args : List String)
    (hin : containmentOk (w.realpath R) (w.realpath (osJoin R C)) = true)
    (hf : (w.file (w.realpath (osJoin R C))).isNone = false)
    (hpy : strEnds ".py" (pathStr (w.realpath (osJoin R C))) = true)
    (hl : w.procLaunchFault (w.realpath (osJoin R C)) args = none)
    (hd : w.procDuration (w.realpath (osJoin R C)) args ≤ 30)
    (ho : pyStrip (w.procStdout (w.realpath (osJoin R C)) args) = "")
    (he : pyStrip (w.procStderr (w.realpath (osJoin R C)) args) = "boom")
    (hc : w.procExit (w.realpath (osJoin R C)) args = 2) :
    (run_python_file w R C args).text =
      "STDOUT:\nSTDERR: boom\nProcess exited with code 2" := by
  simp [run_python_file, subprocessRun, hin, hf, hpy, hl,
    Nat.not_lt.2 hd, ho, he, hc]
  decide

/-- Witness for C6: the concrete world `wBoom` (stderr `boom` plus a
trailing newline, exit code 2) renders the exact three-line block. -/
theorem exit_two_boom_rendering_witness :
    (run_python_file wBoom "/ws" "main.py" []).text =
      "STDOUT:\nSTDERR: boom\nProcess exited with code 2" :=
  exit_two_boom_rendering wBoom "/ws" "main.py" [] (by decide) (by decide)
    (by decide) (by decide) (by decide) (by decide) (by decide) (by decide)

/-- C9: `run_python_file` hands `subprocess.run` the fixed timeout 30;
once execution is reached, a process whose wall-clock duration exceeds
30 time-units is killed by `subprocess.run` (modelled by the `raised`
outcome of `subprocessRun`) and the condition is reported as the error
string `Error: executing Python file: <TimeoutExpired detail>` from the
error branch, which begins with `Error:` — while any in-time completion
renders either `No output produced.` or a block that never begins with
`Error:`, so the timeout report is distinct from every normal
(including non-zero-exit) rendering. -/
theorem timeout_reported_distinctly (w : World) (R C : String)
    (args : List String)
    (hin : containmentOk (w.realpath R) (w.realpath (osJoin R C)) = true)
    (hf : (w.file (w.realpath (osJoin R C))).isNone = false)
    (hpy : strEnds ".py" (pathStr (w.realpath (osJoin R C))) = true)
    (hl : w.procLaunchFault (w.realpath (osJoin R C)) args = none) :
    (30 < w.procDuration (w.realpath (osJoin R C)) args →
      run_python_file w R C args =
        ⟨"Error: executing Python file: " ++
            w.procTimeoutMsg (w.realpath (osJoin R C)) args 30, false, w,
          [.spawn (w.realpath (osJoin R C)) args]⟩ ∧
      strStarts "Error:" (run_python_file w R C args).text = true) ∧
    (w.procDuration (w.realpath (osJoin R C)) args ≤ 30 →
      strStarts "Error:" (run_python_file w R C args).text = false) := by
  constructor
  · intro hgt
    have hrun : run_python_file w R C args =
        ⟨"Error: executing Python file: " ++
            w.procTimeoutMsg (w.realpath (osJoin R C)) args 30, false, w,
          [.spawn (w.realpath (osJoin R C)) args]⟩ := by
      simp [run_python_file, subprocessRun, hin, hf, hpy, hl, hgt]
    refine ⟨hrun, ?_⟩
    rw [hrun]
    exact strStarts_append "Error:" "Error: executing Python file: " _
      (by decide)
  · intro hd
    by_cases ho : pyStrip (w.procStdout (w.realpath (osJoin R C)) args) = ""
    all_goals
      by_cases he : pyStrip (w.procStderr (w.realpath (osJoin R C)) args) = ""
    · simp [run_python_file, subprocessRun, hin, hf, hpy, hl,
        Nat.not_lt.2 hd, ho, he]
      decide
    all_goals
      by_cases hc0 : w.procExit (w.realpath (osJoin R C)) args = 0
    all_goals
      simp [run_python_file, subprocessRun, hin, hf, hpy, hl,
        Nat.not_lt.2 hd, ho, he, hc0]
    all_goals apply not_error_of_stdout
    · exact block_starts_stdout _ _ (by decide)
    · exact block_starts_stdout _ _ (by decide)
    all_goals
      exact block_starts_stdout _ _
        (strStarts_append "STDOUT:" "STDOUT: " _ (by decide))

/-- Witness for C9: in `wSleeper` the script's duration is 60 > 30, and
the call returns the timeout error string. -/
theorem timeout_reported_distinctly_witness :
    run_python_file wSleeper "/ws" "main.py" [] =
      ⟨"Error: executing Python file: " ++
          wSleeper.procTimeoutMsg (wSleeper.realpath
            (osJoin "/ws" "main.py")) [] 30, false, wSleeper,
        [.spawn (wSleeper.realpath (osJoin "/ws" "main.py")) []]⟩ :=
  (((timeout_reported_distinctly wSleeper "/ws" "main.py" [] (by decide)
    (by decide) (by decide) (by decide)).1) (by decide)).1

/-- C5, counterexample: in `wNotADir` the resolved target of
`notes.txt` exists but is a regular file; `get_files_info` passes the
existence check, and the `NotADirectoryError` raised by `os.listdir` is
caught by the generic handler, yielding
`Error: [Errno 20] Not a directory: '/ws/notes.txt'` — not the
`"notes.txt" is not a directory` text the claim requires for this
case. -/
theorem listing_error_texts_counterexample :
    wNotADir.pathExists (wNotADir.realpath (osJoin
      (pathStr (wNotADir.realpath "/ws")) "notes.txt")) = true ∧
    wNotADir.isdir (wNotADir.realpath (osJoin
      (pathStr (wNotADir.realpath "/ws")) "notes.txt")) = false ∧
    (get_files_info wNotADir "/ws" "notes.txt").text =
      "Error: [Errno 20] Not a directory: \x27/ws/notes.txt\x27" ∧
    (get_files_info wNotADir "/ws" "notes.txt").text ≠
      "Error: \"notes.txt\" is not a directory" := by
  refine ⟨by decide, by decide, by decide, by decide⟩

/-- C5, amended: for a relative, contained directory argument,
`get_files_info` returns `Error: "<directory>" is not a directory` only
when the resolved target does not exist; when the target exists but is
not a directory, the existence check passes and the fault raised by
`os.listdir` is caught by the generic handler, producing
`Error: <fault detail>` — a different text, so the two cases are
distinguished. -/
theorem listing_missing_vs_wrong_type_texts (w : World)
    (R D m : String)
    (habs : strStarts "/" D = false)
    (hin : containmentOk (w.realpath R) (w.realpath (osJoin
      (pathStr (w.realpath R)) D)) = true) :
    (w.pathExists (w.realpath (osJoin (pathStr (w.realpath R)) D)) =
        false →
      (get_files_info w R D).text =
        "Error: \"" ++ D ++ "\" is not a directory") ∧
    (w.pathExists (w.realpath (osJoin (pathStr (w.realpath R)) D)) =
        true →
      w.listdir (w.realpath (osJoin (pathStr (w.realpath R)) D)) =
        .error m →
      (get_files_info w R D).text = "Error: " ++ m) := by
  constructor
  · intro hex
    simp [get_files_info, habs, hin, hex, errRes]
  · intro hex hld
    simp [get_files_info, habs, hin, hex, hld, errRes]

/-- Witness for the amended C5: applying the exists-but-not-a-directory
branch in `wNotADir` yields the generic rendering of the
`NotADirectoryError`. -/
theorem listing_missing_vs_wrong_type_texts_witness :
    (get_files_info wNotADir "/ws" "notes.txt").text =
      "Error: " ++ "[Errno 20] Not a directory: \x27/ws/notes.txt\x27" :=
  (listing_missing_vs_wrong_type_texts wNotADir "/ws" "notes.txt"
    "[Errno 20] Not a directory: \x27/ws/notes.txt\x27" (by decide)
    (by decide)).2 (by decide) rfl

/-- C10: although `working_directory` is listed among the `required`
members of every schema in `TOOL_DEFINITIONS`, each gateway executor
substitutes `.` when the argument is absent/`None` (modelled as `none`)
or the empty string, resolves it to the repository root itself, and
invokes the inner operation with the repository root as the sandbox
root instead of rejecting the call.  The hypothesis `hroot` records the
operating-system fact that `<root>/.` resolves back to the canonical
root. -/
theorem missing_working_directory_defaults_to_repo_root
    (MAX_READ_LENGTH : Nat) (w : World) (repoRoot : FsPath)
    (raw : Option String) (fp c d : String)
    (hraw : raw = none ∨ raw = some "")
    (hfp : fp ≠ "")
    (hroot : w.realpath (osJoin (pathStr repoRoot) ".") = repoRoot) :
    resolveWorkingDirectory w repoRoot raw = .ok repoRoot ∧
    executeGetFileContent MAX_READ_LENGTH w repoRoot
        ⟨raw, some fp, some c, some d, .pylist []⟩ =
      get_file_content MAX_READ_LENGTH w (pathStr repoRoot) fp ∧
    executeGetFilesInfo w repoRoot
        ⟨raw, some fp, some c, some d, .pylist []⟩ =
      get_files_info w (pathStr repoRoot) d ∧
    executeWriteFile w repoRoot
        ⟨raw, some fp, some c, some d, .pylist []⟩ =
      write_file w (pathStr repoRoot) fp c ∧
    executeRunPythonFile w repoRoot
        ⟨raw, some fp, some c, some d, .pylist []⟩ =
      run_python_file w (pathStr repoRoot) fp [] ∧
    "working_directory" ∈ toolRequired "get_file_content" ∧
    "working_directory" ∈ toolRequired "get_files_info" ∧
    "working_directory" ∈ toolRequired "write_file" ∧
    "working_directory" ∈ toolRequired "run_python_file" := by
  have hres : resolveWorkingDirectory w repoRoot raw = .ok repoRoot := by
    rcases hraw with rfl | rfl
    · simp [resolveWorkingDirectory, hroot, containmentOk_refl,
        show strStarts "/" "." = false from by decide]
    · simp [resolveWorkingDirectory, hroot, containmentOk_refl,
        show strStarts "/" "." = false from by decide]
  refine ⟨hres, ?_, ?_, ?_, ?_, by decide, by decide, by decide, by decide⟩
  · simp [executeGetFileContent, pyFalsy, hfp, hres]
  · simp [executeGetFilesInfo, hres]
  · simp [executeWriteFile, pyFalsy, hfp, hres]
  · simp [executeRunPythonFile, pyFalsy, hfp, hres, collectStrArgs]

/-- Witness for C10: with repository root `/repo` in `wRepo`, an absent
`working_directory` resolves to the root itself. -/
theorem missing_working_directory_defaults_to_repo_root_witness :
    resolveWorkingDirectory wRepo ["repo"] none = .ok ["repo"] :=
  (missing_working_directory_defaults_to_repo_root 100 wRepo ["repo"]
    none "f.py" "x" "." (Or.inl rfl) (by decide) (by decide)).1

lemma okOrErr_get_file_content (MAX : Nat) (w : World) (R C : String) :
    (get_file_content MAX w R C).ok = true ∨
      strStarts "Error:" (get_file_content MAX w R C).text = true := by
  cases h1 : containmentOk (w.realpath R) (w.realpath (osJoin R C))
  · right
    simp [get_file_content, h1, errRes]
    exact strStarts_append _ _ _ (strStarts_append _ _ _ (by decide))
  · rcases hf : w.file (w.realpath (osJoin R C)) with _ | content
    · right
      simp [get_file_content, h1, hf, errRes]
      exact strStarts_append _ _ _ (strStarts_append _ _ _ (by decide))
    · rcases hr : w.readFault (w.realpath (osJoin R C)) with _ | ⟨cls, detail⟩
      · by_cases hlen : MAX < content.length
        · left; simp [get_file_content, h1, hf, hr, hlen]
        · left; simp [get_file_content, h1, hf, hr, hlen]
      · right
        simp [get_file_content, h1, hf, hr, errRes]
        exact strStarts_append _ _ _ (strStarts_append _ _ _
          (strStarts_append _ _ _ (by decide)))

lemma okOrErr_write_file (w : World) (R C X : String) :
    (write_file w R C X).ok = true ∨
      strStarts "Error:" (write_file w R C X).text = true := by
  cases h1 : containmentOk (w.realpath R) (w.realpath (osJoin R C))
  · right
    simp [write_file, h1, errRes]
    exact strStarts_append _ _ _ (strStarts_append _ _ _ (by decide))
  · rcases hw : w.writeFault (w.realpath (osJoin R C)) with _ | ⟨cls, detail⟩
    · left; simp [write_file, h1, hw]
    · right
      simp [write_file, h1, hw, errRes]
      exact strStarts_append _ _ _ (strStarts_append _ _ _
        (strStarts_append _ _ _ (by decide)))

lemma okOrErr_run_python_file (w : World) (R C : String)
    (args : List String) :
    (run_python_file w R C args).ok = true ∨
      strStarts "Error:" (run_python_file w R C args).text = true := by
  cases h1 : containmentOk (w.realpath R) (w.realpath (osJoin R C))
  · right
    simp [run_python_file, h1, errRes]
    exact strStarts_append _ _ _ (strStarts_append _ _ _ (by decide))
  · rcases hf : w.file (w.realpath (osJoin R C)) with _ | content
    · right
      simp [run_python_file, h1, hf, errRes]
      exact strStarts_append _ _ _ (strStarts_append _ _ _ (by decide))
    · cases hpy : strEnds ".py" (pathStr (w.realpath (osJoin R C)))
      · right
        simp [run_python_file, h1, hf, hpy, errRes]
        exact strStarts_append _ _ _ (strStarts_append _ _ _ (by decide))
      · rcases hsp : subprocessRun w (w.realpath (osJoin R C)) args 30 with
          ⟨out, err, code⟩ | excStr
        · by_cases ho : pyStrip out = ""
          all_goals by_cases he : pyStrip err = ""
          all_goals by_cases hc0 : code = 0
          all_goals left
          all_goals simp [run_python_file, h1, hf, hpy, hsp, ho, he, hc0]
        · right
          simp [run_python_file, h1, hf, hpy, hsp, errRes]
          exact strStarts_append _ _ _ (by decide)

lemma okOrErr_get_files_info (w : World) (R D : String) :
    (get_files_info w R D).ok = true ∨
      strStarts "Error:" (get_files_info w R D).text = true := by
  cases habs : strStarts "/" D
  · cases h1 : containmentOk (w.realpath R)
      (w.realpath (osJoin (pathStr (w.realpath R)) D))
    · right
      simp [get_files_info, habs, h1, errRes]
      exact strStarts_append _ _ _ (strStarts_append _ _ _ (by decide))
    · cases hex : w.pathExists (w.realpath (osJoin
        (pathStr (w.realpath R)) D))
      · right
        simp [get_files_info, habs, h1, hex, errRes]
        exact strStarts_append _ _ _ (strStarts_append _ _ _ (by decide))
      · rcases hld : w.listdir (w.realpath (osJoin
          (pathStr (w.realpath R)) D)) with m | names
        · right
          simp [get_files_info, habs, h1, hex, hld, errRes]
          exact strStarts_append _ _ _ (by decide)
        · left
          simp [get_files_info, habs, h1, hex, hld]
  · right
    simp [get_files_info, habs, errRes]
    decide

lemma okOrErr_executeGetFileContent (MAX : Nat) (w : World)
    (root : FsPath) (a : ToolArgs) :
    (executeGetFileContent MAX w root a).ok = true ∨
      strStarts "Error:" (executeGetFileContent MAX w root a).text =
        true := by
  cases hfp : pyFalsy a.file_path
  · rcases hres : resolveWorkingDirectory w root a.working_directory with
      m | wd
    · right
      simp [executeGetFileContent, hfp, hres, errRes]
      exact strStarts_append _ _ _ (by decide)
    · simpa [executeGetFileContent, hfp, hres] using
        okOrErr_get_file_content MAX w (pathStr wd) (a.file_path.getD "")
  · right
    simp [executeGetFileContent, hfp, errRes]
    decide

lemma okOrErr_executeGetFilesInfo (w : World) (root : FsPath)
    (a : ToolArgs) :
    (executeGetFilesInfo w root a).ok = true ∨
      strStarts "Error:" (executeGetFilesInfo w root a).text = true := by
  rcases hres : resolveWorkingDirectory w root a.working_directory with
    m | wd
  · right
    simp [executeGetFilesInfo, hres, errRes]
    exact strStarts_append _ _ _ (by decide)
  · simpa [executeGetFilesInfo, hres] using
      okOrErr_get_files_info w (pathStr wd) (a.directory.getD ".")

lemma okOrErr_executeWriteFile (w : World) (root : FsPath)
    (a : ToolArgs) :
    (executeWriteFile w root a).ok = true ∨
      strStarts "Error:" (executeWriteFile w root a).text = true := by
  cases hv : (pyFalsy a.file_path || a.content = none : Bool)
  · rcases hres : resolveWorkingDirectory w root a.working_directory with
      m | wd
    · right
      simp [executeWriteFile, hv, hres, errRes]
      exact strStarts_append _ _ _ (by decide)
    · simpa [executeWriteFile, hv, hres] using
        okOrErr_write_file w (pathStr wd) (a.file_path.getD "")
          (a.content.getD "")
  · right
    simp [executeWriteFile, hv, errRes]
    decide

lemma okOrErr_executeRunPythonFile (w : World) (root : FsPath)
    (a : ToolArgs) :
    (executeRunPythonFile w root a).ok = true ∨
      strStarts "Error:" (executeRunPythonFile w root a).text = true := by
  cases hfp : pyFalsy a.file_path
  · rcases hargs : a.argsField with _ | _ | l | _
    · rcases hres : resolveWorkingDirectory w root a.working_directory with
        m | wd
      · right
        simp [executeRunPythonFile, hfp, hargs, hres, errRes]
        exact strStarts_append _ _ _ (by decide)
      · simpa [executeRunPythonFile, hfp, hargs, hres] using
          okOrErr_run_python_file w (pathStr wd) (a.file_path.getD "") []
    · rcases hres : resolveWorkingDirectory w root a.working_directory with
        m | wd
      · right
        simp [executeRunPythonFile, hfp, hargs, hres, errRes]
        exact strStarts_append _ _ _ (by decide)
      · simpa [executeRunPythonFile, hfp, hargs, hres] using
          okOrErr_run_python_file w (pathStr wd) (a.file_path.getD "") []
    · rcases hcol : collectStrArgs l with _ | tool_args
      · right
        simp [executeRunPythonFile, hfp, hargs, hcol, errRes]
        decide
      · rcases hres : resolveWorkingDirectory w root a.working_directory with
          m | wd
        · right
          simp [executeRunPythonFile, hfp, hargs, hcol, hres, errRes]
          exact strStarts_append _ _ _ (by decide)
        · simpa [executeRunPythonFile, hfp, hargs, hcol, hres] using
            okOrErr_run_python_file w (pathStr wd) (a.file_path.getD "")
              tool_args
    · right
      simp [executeRunPythonFile, hfp, hargs, errRes]
      decide
  · right
    simp [executeRunPythonFile, hfp, errRes]
    decide

lemma okOrErr_handleToolCall (MAX : Nat) (w : World) (root : FsPath)
    (tool_name : String) (parsed : Except String ToolArgs) :
    (handleToolCall MAX w root tool_name parsed).ok = true ∨
      strStarts "Error:" (handleToolCall MAX w root tool_name
        parsed).text = true := by
  by_cases h1 : tool_name = "get_file_content"
  · subst h1
    rcases parsed with exc | a
    · right
      rw [show handleToolCall MAX w root "get_file_content" (.error exc) =
        errRes w ("Error: Could not parse arguments for tool \"" ++
          "get_file_content" ++ "\": " ++ exc) from rfl]
      simp [errRes]
      exact strStarts_append _ _ _ (by decide)
    · rw [show handleToolCall MAX w root "get_file_content" (.ok a) =
        executeGetFileContent MAX w root a from rfl]
      exact okOrErr_executeGetFileContent MAX w root a
  by_cases h2 : tool_name = "get_files_info"
  · subst h2
    rcases parsed with exc | a
    · right
      rw [show handleToolCall MAX w root "get_files_info" (.error exc) =
        errRes w ("Error: Could not parse arguments for tool \"" ++
          "get_files_info" ++ "\": " ++ exc) from rfl]
      simp [errRes]
      exact strStarts_append _ _ _ (by decide)
    · rw [show handleToolCall MAX w root "get_files_info" (.ok a) =
        executeGetFilesInfo w root a from rfl]
      exact okOrErr_executeGetFilesInfo w root a
  by_cases h3 : tool_name = "write_file"
  · subst h3
    rcases parsed with exc | a
    · right
      rw [show handleToolCall MAX w root "write_file" (.error exc) =
        errRes w ("Error: Could not parse arguments for tool \"" ++
          "write_file" ++ "\": " ++ exc) from rfl]
      simp [errRes]
      exact strStarts_append _ _ _ (by decide)
    · rw [show handleToolCall MAX w root "write_file" (.ok a) =
        executeWriteFile w root a from rfl]
      exact okOrErr_executeWriteFile w root a
  by_cases h4 : tool_name = "run_python_file"
  · subst h4
    rcases parsed with exc | a
    · right
      rw [show handleToolCall MAX w root "run_python_file" (.error exc) =
        errRes w ("Error: Could not parse arguments for tool \"" ++
          "run_python_file" ++ "\": " ++ exc) from rfl]
      simp [errRes]
      exact strStarts_append _ _ _ (by decide)
    · rw [show handleToolCall MAX w root "run_python_file" (.ok a) =
        executeRunPythonFile w root a from rfl]
      exact okOrErr_executeRunPythonFile w root a
  · right
    simp [handleToolCall, lookupExecutor, h1, h2, h3, h4, errRes]
    exact strStarts_append _ _ _ (strStarts_append _ _ _ (by decide))

/-- C8: every embedded operation, every gateway executor, and the tool
dispatch of `main._handle_tool_call` is a total function into plain
result strings (no fault propagates — every raise in the source is
caught and rendered, which the embedding reflects by construction), and
whenever the returned string comes from an error branch (`ok = false`)
it begins with the prefix `Error:`, so callers can separate the failure
outcomes (containment, not-found, validation, execution, timeout,
unknown-tool, argument-parse) by prefix inspection. -/
theorem all_error_outcomes_carry_error_prefix :
    (∀ (MAX : Nat) (w : World) (R C : String),
      (get_file_content MAX w R C).ok = true ∨
        strStarts "Error:" (get_file_content MAX w R C).text = true) ∧
    (∀ (w : World) (R C X : String),
      (write_file w R C X).ok = true ∨
        strStarts "Error:" (write_file w R C X).text = true) ∧
    (∀ (w : World) (R C : String) (args : List String),
      (run_python_file w R C args).ok = true ∨
        strStarts "Error:" (run_python_file w R C args).text = true) ∧
    (∀ (w : World) (R D : String),
      (get_files_info w R D).ok = true ∨
        strStarts "Error:" (get_files_info w R D).text = true) ∧
    (∀ (MAX : Nat) (w : World) (root : FsPath) (a : ToolArgs),
      (executeGetFileContent MAX w root a).ok = true ∨
        strStarts "Error:" (executeGetFileContent MAX w root a).text =
          true) ∧
    (∀ (w : World) (root : FsPath) (a : ToolArgs),
      (executeGetFilesInfo w root a).ok = true ∨
        strStarts "Error:" (executeGetFilesInfo w root a).text = true) ∧
    (∀ (w : World) (root : FsPath) (a : ToolArgs),
      (executeWriteFile w root a).ok = true ∨
        strStarts "Error:" (executeWriteFile w root a).text = true) ∧
    (∀ (w : World) (root : FsPath) (a : ToolArgs),
      (executeRunPythonFile w root a).ok = true ∨
        strStarts "Error:" (executeRunPythonFile w root a).text = true) ∧
    (∀ (MAX : Nat) (w : World) (root : FsPath) (tool_name : String)
        (parsed : Except String ToolArgs),
      (handleToolCall MAX w root tool_name parsed).ok = true ∨
        strStarts "Error:" (handleToolCall MAX w root tool_name
          parsed).text = true) :=
  ⟨okOrErr_get_file_content, okOrErr_write_file, okOrErr_run_python_file,
    okOrErr_get_files_info, okOrErr_executeGetFileContent,
    okOrErr_executeGetFilesInfo, okOrErr_executeWriteFile,
    okOrErr_executeRunPythonFile, okOrErr_handleToolCall⟩
